import Mathlib

/-!
# Verification of the py-http response/fetch/error subsystem

Shallow embedding of the repository's `lib/response.py` (`ResponseHelper.file`,
`ResponseHelper.streamProxy`, `Response.__init__`), `lib/fetch.py` (`fetch`),
`lib/headers.py` (`HOP_BY_HOP`, `Headers.to_proxy_dict`, `proxy_headers`) and
`lib/handler.py` / `lib/error.py` (`_handle_error`, `HttpServerError.from_exception`).

Bytes are modelled as `List Nat`, Python strings as Lean `String`, Python ints
as `Int`.  Header emission is modelled as the ordered list of `send_header`
calls the code performs (the transport-level `Server`/`Date` headers added by
`BaseHTTPRequestHandler.send_response` are outside the embedded code).
-/

namespace PyHttp

/-- Strings are handled as their character lists so that every operation is
structurally recursive and evaluates inside the kernel.  `trimChars` models
Python `str.strip()` (used implicitly by `int()`): remove leading and trailing
whitespace. -/
def trimChars (l : List Char) : List Char :=
  ((l.dropWhile Char.isWhitespace).reverse.dropWhile Char.isWhitespace).reverse

/-- Digit-string to number, for `pyIntChars`: `none` unless the list is a
nonempty run of decimal digits. -/
def pyDigits : List Char → Option Nat
  | [] => none
  | l =>
    if l.all Char.isDigit then
      some (l.foldl (fun a c => 10 * a + (c.toNat - 48)) 0)
    else none

/-- Python `int(s)`: surrounding whitespace is stripped, an optional sign is
accepted, the rest must be a nonempty digit string; otherwise the call raises
`ValueError`, modelled as `none`.  (Python additionally accepts `_` as a
digit-group separator inside the digits; no claim involves such inputs.) -/
def pyIntChars (l : List Char) : Option Int :=
  match trimChars l with
  | '-' :: rest => (pyDigits rest).map (fun n => -(n : Int))
  | '+' :: rest => (pyDigits rest).map (fun n => (n : Int))
  | t => (pyDigits t).map (fun n => (n : Int))

/-- Python `s.split("-")`: split at every dash, keeping empty pieces, so that
`"1-2-3"` gives `["1","2","3"]` and `""` gives `[""]`. -/
def splitOnDash : List Char → List (List Char)
  | [] => [[]]
  | c :: rest =>
    if c = '-' then [] :: splitOnDash rest
    else
      match splitOnDash rest with
      | [] => [[c]]
      | first :: more => (c :: first) :: more

/-- Outcome of the `Range`-header parsing block of `ResponseHelper.file`
(`src/lib/response.py` lines 225-254).  Because the `try` block mutates
`start`/`end` in place before an exception can be raised, the `ValueError`
outcome carries the values `start`/`end` hold when the exception is caught
(`except ValueError: pass` then proceeds with those values and the original
status).  `parts[1]` on a one-element list raises `IndexError`, which the
`except ValueError` clause does not catch. -/
inductive RangeOutcome where
  | noHeader
  | valueError (start endv : Int)
  | indexError
  | parsed (start endv : Int)
  deriving Repr, DecidableEq

/-- The `Range` parsing of `ResponseHelper.file`:

```python
start, end = 0, file_size - 1
if range_header and range_header.startswith("bytes="):
  try:
    range_spec = range_header[6:]
    if range_spec.startswith("-"):
      suffix_len = int(range_spec[1:])
      start = max(0, file_size - suffix_len)
    elif range_spec.endswith("-"):
      start = int(range_spec[:-1])
    else:
      parts = range_spec.split("-")
      start = int(parts[0])
      end = int(parts[1]) if parts[1] else file_size - 1
    ...
  except ValueError:
    pass
```

A `None` or empty header (Python falsy) or one not starting with `bytes=`
takes the no-header path. -/
def parseRangeChars (spec : List Char) (fileSize : Int) : RangeOutcome :=
  match spec with
  | '-' :: rest =>
    match pyIntChars rest with
    | none => .valueError 0 (fileSize - 1)
    | some n => .parsed (max 0 (fileSize - n)) (fileSize - 1)
  | _ =>
    if spec.getLast? = some '-' then
      match pyIntChars spec.dropLast with
      | none => .valueError 0 (fileSize - 1)
      | some a => .parsed a (fileSize - 1)
    else
      let parts := splitOnDash spec
      match pyIntChars (parts.headD []) with
      | none => .valueError 0 (fileSize - 1)
      | some a =>
        match parts.drop 1 with
        | [] => .indexError
        | p1 :: _ =>
          if p1 = [] then .parsed a (fileSize - 1)
          else
            match pyIntChars p1 with
            | none => .valueError a (fileSize - 1)
            | some b => .parsed a b

/-- Entry to the parse: a `None` or empty header (Python falsy) or one not
starting with `bytes=` takes the no-header path; otherwise the part after
`bytes=` is parsed by `parseRangeChars`. -/
def parseRange (rangeHeader : Option String) (fileSize : Int) : RangeOutcome :=
  match rangeHeader with
  | none => .noHeader
  | some h =>
    match h.toList with
    | [] => .noHeader
    | chars =>
      if List.isPrefixOf ['b', 'y', 't', 'e', 's', '='] chars then
        parseRangeChars (chars.drop 6) fileSize
      else .noHeader

/-- The three body-transfer strategies of `ResponseHelper.file`. -/
inductive FileMode where
  | sendfile
  | buffer
  | stream
  deriving Repr, DecidableEq

/-- One-chunk-per-step unrolling of the stream-mode read loop, structurally
recursive on an iteration budget.  Each executed iteration reads a nonempty
chunk of at most `min chunkSize remaining` bytes and subtracts its length from
`remaining`, so `remaining` iterations always suffice; `streamRead` supplies
that budget. -/
def streamReadAux (content : List Nat) (pos remaining chunkSize fuel : Nat) : List Nat :=
  match fuel with
  | 0 => []
  | fuel + 1 =>
    if remaining = 0 then []
    else
      let chunk := (content.drop pos).take (min chunkSize remaining)
      if chunk.length = 0 then []
      else chunk ++ streamReadAux content (pos + chunk.length) (remaining - chunk.length) chunkSize fuel

/-- Stream-mode read loop (`src/lib/response.py` lines 293-304): seek to `pos`,
then repeatedly `f.read(min(chunk_size, remaining))`, appending each chunk and
subtracting its length from `remaining`, stopping when `remaining` reaches 0 or
a read returns no bytes. -/
def streamRead (content : List Nat) (pos remaining chunkSize : Nat) : List Nat :=
  streamReadAux content pos remaining chunkSize remaining

/-- A response as materialized onto the connection by `ResponseHelper.file`:
the argument of `send_response`, the ordered `send_header` calls, and the body
bytes written.  `body = none` records that the transfer aborted with an I/O
error (a negative seek offset) after the headers were sent. -/
structure SentResponse where
  status : Int
  headers : List (String × String)
  body : Option (List Nat)
  deriving Repr, DecidableEq

/-- Result of `ResponseHelper.file` on an existing regular file: either a
response was sent, or the parse block raised an uncaught `IndexError`
(propagating to the caller before anything was written). -/
inductive FileResult where
  | sent (r : SentResponse)
  | indexError
  deriving Repr, DecidableEq

/-- Status of a `FileResult`, when a response was sent. -/
def FileResult.statusOf : FileResult → Option Int
  | .sent r => some r.status
  | .indexError => none

/-- Headers of a `FileResult`, when a response was sent. -/
def FileResult.headersOf : FileResult → List (String × String)
  | .sent r => r.headers
  | .indexError => []

/-- Body of a `FileResult`, when a response was sent and the transfer completed. -/
def FileResult.bodyOf : FileResult → Option (List Nat)
  | .sent r => r.body
  | .indexError => none

/-- Header block sent by `ResponseHelper.file` (lines 259-268): `Content-Type`,
`Content-Length`, `Accept-Ranges`, then `Content-Range` exactly when the status
is 206, then the caller's extra headers. -/
def fileHeaders (contentType : String) (contentLength status start endv fileSize : Int)
    (extra : List (String × String)) : List (String × String) :=
  [("Content-Type", contentType),
   ("Content-Length", toString contentLength),
   ("Accept-Ranges", "bytes")] ++
  (if status = 206 then
    [("Content-Range", "bytes " ++ toString start ++ "-" ++ toString endv ++ "/" ++ toString fileSize)]
   else []) ++ extra

/-- Body produced by the transfer stage of `ResponseHelper.file` (lines 270-304)
for a given `start` offset and `content_length = len`.  `start < 0` makes
`f.seek(start)` (buffer/stream) or the first `os.sendfile` call (sendfile mode,
only reached when at least one byte remains to send) raise, modelled as `none`.
For `len < 0`, buffer mode's `f.read(len)` reads to end-of-file, while the
stream and sendfile loops do not run at all. -/
def transferBody (content : List Nat) (mode : FileMode) (chunkSize : Nat)
    (start len : Int) : Option (List Nat) :=
  match mode with
  | .buffer =>
    if start < 0 then none
    else if len < 0 then some (content.drop start.toNat)
    else some ((content.drop start.toNat).take len.toNat)
  | .stream =>
    if start < 0 then none
    else some (streamRead content start.toNat len.toNat chunkSize)
  | .sendfile =>
    if len ≤ 0 then some []
    else if start < 0 then none
    else some ((content.drop start.toNat).take len.toNat)

/-- The send stage of `ResponseHelper.file` (lines 256-304): compute
`content_length = end - start + 1`, send status and headers, then transfer
`[start, start+content_length)` of the file in the selected mode. -/
def sendFileResponse (content : List Nat) (contentType : String)
    (extra : List (String × String)) (chunkSize : Nat) (mode : FileMode)
    (status start endv fileSize : Int) : FileResult :=
  let len := endv - start + 1
  .sent { status := status,
          headers := fileHeaders contentType len status start endv fileSize extra,
          body := transferBody content mode chunkSize start len }

/-- `ResponseHelper.file` on an existing regular file whose bytes are
`content`, given the request's `Range` header, the (already resolved) content
type, the caller's extra headers, chunk size, caller-supplied `status`
argument, and transfer mode.  Follows `src/lib/response.py` lines 219-304:
parse the `Range` header mutating `start`/`end`; on a parsed range, answer 416
when `start > end or start >= file_size` (`Content-Range: bytes */{size}`, no
body bytes written), else clamp `end` to `file_size - 1` and force status 206;
on `ValueError` fall through with whatever `start`/`end` hold; `IndexError`
escapes. -/
def fileOp (content : List Nat) (rangeHeader : Option String) (contentType : String)
    (extra : List (String × String)) (chunkSize : Nat) (status0 : Int)
    (mode : FileMode) : FileResult :=
  let fileSize : Int := (content.length : Int)
  match parseRange rangeHeader fileSize with
  | .indexError => .indexError
  | .noHeader =>
    sendFileResponse content contentType extra chunkSize mode status0 0 (fileSize - 1) fileSize
  | .valueError s e =>
    sendFileResponse content contentType extra chunkSize mode status0 s e fileSize
  | .parsed s e =>
    if s > e ∨ s ≥ fileSize then
      .sent { status := 416,
              headers := [("Content-Range", "bytes */" ++ toString fileSize)],
              body := some [] }
    else
      sendFileResponse content contentType extra chunkSize mode 206 s (min e (fileSize - 1)) fileSize

/-! ## Headers (`src/lib/headers.py`) and hop-by-hop filtering -/

/-- Python `str.lower()` on ASCII header names. -/
def lowerChar (c : Char) : Char :=
  if 'A' ≤ c ∧ c ≤ 'Z' then Char.ofNat (c.toNat + 32) else c

/-- Lower-case a header name, as `key.lower()` does. -/
def lowerStr (s : String) : String :=
  String.mk (s.toList.map lowerChar)

/-- `HOP_BY_HOP` from `src/lib/headers.py` lines 8-12: hop-by-hop plus
`accept-encoding`/`content-length`. -/
def HOP_BY_HOP : List String :=
  ["connection", "keep-alive", "proxy-authenticate", "proxy-authorization",
   "te", "trailers", "transfer-encoding", "upgrade", "host",
   "accept-encoding", "content-length"]

/-- `_HOP_BY_HOP` from `src/lib/fetch.py` lines 11-14: the same set except
that it does not contain `accept-encoding`. -/
def FETCH_HOP_BY_HOP : List String :=
  ["connection", "keep-alive", "proxy-authenticate", "proxy-authorization",
   "te", "trailers", "transfer-encoding", "upgrade", "host", "content-length"]

/-- Python `dict` assignment `d[k] = v` on an insertion-ordered association
list: replace the value in place when the key is present, else append. -/
def dictSet (d : List (String × String)) (k v : String) : List (String × String) :=
  if d.any (fun kv => kv.1 = k) then
    d.map (fun kv => if kv.1 = k then (k, v) else kv)
  else d ++ [(k, v)]

/-- `Headers.__init__` from a dict / item list / `HTTPMessage`: every key is
lower-cased on the way in, later duplicates overwriting earlier ones. -/
def headersInit (init : List (String × String)) : List (String × String) :=
  init.foldl (fun d kv => dictSet d (lowerStr kv.1) kv.2) []

/-- `Headers.to_proxy_dict` (`src/lib/headers.py` lines 87-89): drop the
entries whose (already lower-cased) key is in `HOP_BY_HOP`. -/
def to_proxy_dict (hs : List (String × String)) : List (String × String) :=
  hs.filter (fun kv => kv.1 ∉ HOP_BY_HOP)

/-- `proxy_headers` (`src/lib/headers.py` lines 120-137): normalize the source
into a `Headers` (lower-cased keys), then copy every entry whose key is not in
`HOP_BY_HOP` (`result.set` lower-cases again, a no-op here). -/
def proxy_headers (raw : List (String × String)) : List (String × String) :=
  (headersInit raw).foldl
    (fun acc kv => if kv.1 ∈ HOP_BY_HOP then acc else dictSet acc kv.1 kv.2) []

/-! ## Upstream round trips: `streamProxy` and `fetch` -/

/-- UTF-8 bytes of a string, for `str.encode()`. -/
def utf8Bytes (s : String) : List Nat :=
  s.toUTF8.toList.map (fun b => b.toNat)

/-- The four ways the `urlopen` round trip inside `streamProxy`/`fetch` can
resolve, mirroring the `try/except` arms of both functions: a non-error
response, a raised `HTTPError` (itself carrying a status, headers and body), a
raised `URLError` (name resolution / connection failure, carrying `e.reason`),
or a raised `TimeoutError`. -/
inductive UpstreamOutcome where
  | success (status : Int) (headers : List (String × String)) (body : List Nat)
  | httpError (status : Int) (headers : List (String × String)) (body : List Nat)
  | urlError (reason : String)
  | timeoutError
  deriving Repr, DecidableEq

/-- What `ResponseHelper.streamProxy` puts on the wire, or the uncaught
exception it raises.  `unboundLocalError`: the handler
`except HTTPError as upstream: pass` makes Python delete the name `upstream`
when the except block exits (the language implicitly runs `del upstream`), so
the subsequent `r.send_response(upstream.status)` raises `UnboundLocalError`
before anything is written. -/
inductive ProxyResult where
  | sent (status : Int) (headers : List (String × String)) (body : List Nat)
  | unboundLocalError
  deriving Repr, DecidableEq

/-- Headers sent to the client by a proxy response (empty if the call raised). -/
def ProxyResult.headersOf : ProxyResult → List (String × String)
  | .sent _ hs _ => hs
  | .unboundLocalError => []

/-- `ResponseHelper.streamProxy` (`src/lib/response.py` lines 129-167), from
the point where the upstream round trip has resolved (the request headers sent
upstream are `to_proxy_dict` of the caller's `Headers`).  On `URLError`: 502
with a plain-text body naming the reason.  On `TimeoutError`: 504.  On a
successful response: relay the upstream status, copy every upstream header
whose lower-cased name is not in `HOP_BY_HOP`, append `Accept-Ranges: bytes`
when upstream supplied none, and stream the body chunks (whose concatenation
is the upstream body).  On `HTTPError`: see `ProxyResult.unboundLocalError`. -/
def streamProxy (upstream : UpstreamOutcome) : ProxyResult :=
  match upstream with
  | .urlError reason =>
    .sent 502 [("Content-Type", "text/plain")] (utf8Bytes ("Bad Gateway: " ++ reason))
  | .timeoutError =>
    .sent 504 [("Content-Type", "text/plain")] (utf8Bytes "Gateway Timeout")
  | .httpError _ _ _ => .unboundLocalError
  | .success st hs body =>
    .sent st
      (hs.filter (fun kv => lowerStr kv.1 ∉ HOP_BY_HOP) ++
        (if hs.any (fun kv => lowerStr kv.1 = "accept-ranges") then []
         else [("Accept-Ranges", "bytes")]))
      body

/-- A Python value in the `body` slot of `Response`: raw bytes, a `str`, an
`int` (not a documented body type, but reachable — `fetch` passes a status
code positionally into the body parameter), or a `dict`/`list` abstracted as
its `json.dumps` serialization. -/
inductive PyBody where
  | bytes (bs : List Nat)
  | str (s : String)
  | int (n : Int)
  | jsonText (dumped : String)
  deriving Repr, DecidableEq

/-- The `Response` object of `src/lib/response.py` lines 16-53. -/
structure PyResponse where
  status : Int
  headers : List (String × String)
  body : PyBody
  deriving Repr, DecidableEq

/-- `Response.__init__(body=b"", status=200, headers=None)` (lines 29-48):
dict/list bodies are JSON-encoded and default the `Content-Type` to JSON, str
bodies are UTF-8 encoded and default it to plain text, anything else is stored
unchanged with no `Content-Type` inference. -/
def responseInit (body : PyBody) (status : Int) (headers : List (String × String)) : PyResponse :=
  match body with
  | .jsonText d =>
    { status := status,
      headers := if headers.any (fun kv => kv.1 = "Content-Type") then headers
                 else dictSet headers "Content-Type" "application/json; charset=utf-8",
      body := .bytes (utf8Bytes d) }
  | .str s =>
    { status := status,
      headers := if headers.any (fun kv => kv.1 = "Content-Type") then headers
                 else dictSet headers "Content-Type" "text/plain; charset=utf-8",
      body := .bytes (utf8Bytes s) }
  | b => { status := status, headers := headers, body := b }

/-- An exception escaping `fetch`: `Response(502).set_body(...)` and
`Response(504).set_body(...)` look up a method `set_body` that the `Response`
class does not define, raising `AttributeError`. -/
inductive PyError where
  | attributeError (message : String)
  deriving Repr, DecidableEq

/-- What a call to `fetch` does: return a `Response`, or raise. -/
inductive FetchResult where
  | ok (r : PyResponse)
  | raised (e : PyError)
  deriving Repr, DecidableEq

/-- Headers of a returned `Response` (empty if the call raised). -/
def FetchResult.headersOf : FetchResult → List (String × String)
  | .ok r => r.headers
  | .raised _ => []

/-- The header-copy loop shared by both `fetch` success arms: for each
upstream header, skip it when its lower-cased name is in `_HOP_BY_HOP`, else
`result.headers[key] = value`. -/
def fetchCopyHeaders (d : List (String × String)) (up : List (String × String)) :
    List (String × String) :=
  up.foldl (fun acc kv =>
    if lowerStr kv.1 ∈ FETCH_HOP_BY_HOP then acc else dictSet acc kv.1 kv.2) d

/-- `fetch` (`src/lib/fetch.py` lines 17-52), from the point where the
round trip has resolved.  On success: `result = Response(resp.status)` — the
status is passed positionally into the *body* parameter, so the constructed
response keeps the default status 200 and transiently holds the integer as its
body; the filtered upstream headers are copied in and `result.body` is then
overwritten with the full upstream body.  The raised-`HTTPError` arm does the
same with `Response(e.code)`.  The `URLError` and `TimeoutError` arms call the
nonexistent method `set_body`, so they raise `AttributeError` instead of
returning. -/
def fetch (upstream : UpstreamOutcome) : FetchResult :=
  match upstream with
  | .success st hs body =>
    let r := responseInit (.int st) 200 []
    .ok { r with headers := fetchCopyHeaders r.headers hs, body := .bytes body }
  | .httpError code hs body =>
    let r := responseInit (.int code) 200 []
    .ok { r with headers := fetchCopyHeaders r.headers hs, body := .bytes body }
  | .urlError _ =>
    .raised (.attributeError "Response object has no attribute set_body")
  | .timeoutError =>
    .raised (.attributeError "Response object has no attribute set_body")

/-! ## Error adapter (`src/lib/handler.py` lines 50-89, `src/lib/error.py`) -/

/-- The failures relevant to `_handle_error`: the two client-disconnect
exception types it suppresses, a raised `HttpServerError` (which carries a
`status_code` of its own), and any other exception. -/
inductive PyExc where
  | brokenPipe
  | connectionReset
  | httpServerError (status : Int) (message : String)
  | otherExc (message : String)
  deriving Repr, DecidableEq

/-- `str(exc)`, as used for the debug message. -/
def pyExcStr : PyExc → String
  | .brokenPipe => "Broken pipe"
  | .connectionReset => "Connection reset by peer"
  | .httpServerError _ m => m
  | .otherExc m => m

/-- `HttpServerError` as a record: status code, safe message, debug flag (the
original-exception reference is server-side only and not observable here). -/
structure ErrorRecord where
  status_code : Int
  message : String
  debug : Bool
  deriving Repr, DecidableEq

/-- `HttpServerError.from_exception(exc, status_code=500, message=None,
debug=False)` (`src/lib/error.py` lines 36-54): the record's status is the
`status_code` argument; when no message is supplied it is `str(exc)` under
debug, else `"Internal Server Error"`.  Nothing in it reads a status carried
by `exc`. -/
def from_exception (exc : PyExc) (status_code : Int) (message : Option String)
    (debug : Bool) : ErrorRecord :=
  { status_code := status_code,
    message := match message with
      | some m => m
      | none => if debug then pyExcStr exc else "Internal Server Error",
    debug := debug }

/-- How a configured error callback behaves when invoked. -/
inductive CallbackBehavior where
  | succeeds
  | raisesDisconnect
  | raisesOther
  deriving Repr, DecidableEq

/-- Observable effects of one `_handle_error` call: the records passed to the
configured callback, the records passed to `default_error_handler`, whether
the failure was suppressed as a client disconnect, and whether the connection
was marked for closure. -/
structure HandleErrorResult where
  callbackCalls : List ErrorRecord
  defaultCalls : List ErrorRecord
  suppressed : Bool
  closeConnection : Bool
  deriving Repr, DecidableEq

/-- `HttpServerHandler._handle_error` (`src/lib/handler.py` lines 50-78):
client disconnects are suppressed with no response attempt; any other failure
is wrapped by `from_exception(exc, debug=False)` — all other arguments left at
their defaults — and the configured callback, when callable, is called exactly
once with `(self, error)` (a failure inside the callback is caught: a
disconnect, or any other exception after logging, just marks the connection
closed); with no callback, `default_error_handler` is called once instead. -/
def handle_error (exc : PyExc) (callback : Option CallbackBehavior) : HandleErrorResult :=
  match exc with
  | .brokenPipe =>
    { callbackCalls := [], defaultCalls := [], suppressed := true, closeConnection := true }
  | .connectionReset =>
    { callbackCalls := [], defaultCalls := [], suppressed := true, closeConnection := true }
  | _ =>
    let error := from_exception exc 500 none false
    match callback with
    | some b =>
      { callbackCalls := [error], defaultCalls := [], suppressed := false,
        closeConnection := b ≠ .succeeds }
    | none =>
      { callbackCalls := [], defaultCalls := [error], suppressed := false,
        closeConnection := false }

/-- Whether the user handler returned or raised. -/
inductive HandlerOutcome where
  | returns
  | raises (exc : PyExc)
  deriving Repr, DecidableEq

/-- `HttpServerHandler.handle_request` (`src/lib/handler.py` lines 80-89) with
a configured handler: call it; if it raises, route the exception through
`_handle_error` once.  `none` means no error path was taken. -/
def handle_request (outcome : HandlerOutcome) (callback : Option CallbackBehavior) :
    Option HandleErrorResult :=
  match outcome with
  | .returns => none
  | .raises e => some (handle_error e callback)

/-! ## Lemmas about the transfer loops -/

theorem streamReadAux_eq_take (content : List Nat) (chunkSize : Nat) (hcs : 0 < chunkSize) :
    ∀ fuel pos remaining, remaining ≤ fuel →
      streamReadAux content pos remaining chunkSize fuel = (content.drop pos).take remaining := by
  intro fuel
  induction fuel with
  | zero =>
    intro pos remaining hle
    have h0 : remaining = 0 := Nat.le_zero.mp hle
    subst h0
    simp [streamReadAux]
  | succ fuel ih =>
    intro pos remaining hle
    by_cases h0 : remaining = 0
    · subst h0; simp [streamReadAux]
    · have hr : 0 < remaining := Nat.pos_of_ne_zero h0
      simp only [streamReadAux, if_neg h0]
      set dp := content.drop pos with hdp
      set R := min chunkSize remaining with hR
      by_cases hc : (dp.take R).length = 0
      · have hdpnil : dp = [] := by
          rw [List.length_take] at hc
          have hR1 : 0 < R := lt_min hcs hr
          have : dp.length = 0 := by omega
          exact List.eq_nil_of_length_eq_zero this
        simp [hc, hdpnil]
      · rw [if_neg hc]
        set L := (dp.take R).length with hL
        have hLR : L ≤ R := by rw [hL, List.length_take]; omega
        have hLpos : 0 < L := Nat.pos_of_ne_zero hc
        have hLrem : L ≤ remaining := le_trans hLR (min_le_right _ _)
        rw [ih (pos + L) (remaining - L) (by omega)]
        have hdrop : content.drop (pos + L) = dp.drop L := by
          rw [hdp, List.drop_drop, Nat.add_comm]
        rw [hdrop]
        have htake : dp.take L = dp.take R := by
          calc dp.take L = dp.take (min L R) := by rw [min_eq_left hLR]
            _ = (dp.take R).take L := (List.take_take L R dp).symm
            _ = (dp.take R).take ((dp.take R).length) := by rw [← hL]
            _ = dp.take R := List.take_length _
        calc dp.take R ++ (dp.drop L).take (remaining - L)
            = dp.take L ++ (dp.drop L).take (remaining - L) := by rw [htake]
          _ = dp.take (L + (remaining - L)) := (List.take_add dp L (remaining - L)).symm
          _ = dp.take remaining := by rw [Nat.add_sub_cancel' hLrem]

theorem streamRead_eq_take (content : List Nat) (pos remaining chunkSize : Nat)
    (hcs : 0 < chunkSize) :
    streamRead content pos remaining chunkSize = (content.drop pos).take remaining :=
  streamReadAux_eq_take content chunkSize hcs remaining pos remaining le_rfl

/-- The send stage on the full file (`start = 0`, `end = size - 1`): status as
given, headers per `fileHeaders`, body the whole file, in every mode. -/
theorem sendFull (content : List Nat) (contentType : String)
    (extra : List (String × String)) (chunkSize : Nat) (status0 : Int) (mode : FileMode)
    (hcs : 0 < chunkSize) :
    sendFileResponse content contentType extra chunkSize mode status0 0
        ((content.length : Int) - 1) (content.length : Int) =
      .sent { status := status0,
              headers := fileHeaders contentType (content.length : Int) status0 0
                           ((content.length : Int) - 1) (content.length : Int) extra,
              body := some content } := by
  set size : Int := (content.length : Int) with hsz
  have hlen : size - 1 - 0 + 1 = size := by omega
  have hpos : (0 : Int) ≤ size := by positivity
  simp only [sendFileResponse, hlen]
  cases mode with
  | buffer =>
    simp only [transferBody]
    rw [if_neg (by omega : ¬ (0:Int) < 0), if_neg (by omega : ¬ size < 0)]
    simp [hsz]
  | stream =>
    simp only [transferBody]
    rw [if_neg (by omega : ¬ (0:Int) < 0)]
    rw [streamRead_eq_take content (0:Int).toNat size.toNat chunkSize hcs]
    simp [hsz]
  | sendfile =>
    simp only [transferBody]
    by_cases h0 : size ≤ 0
    · rw [if_pos h0]
      have : content = [] := by
        have : content.length = 0 := by omega
        exact List.eq_nil_of_length_eq_zero this
      simp [this]
    · rw [if_neg h0, if_neg (by omega : ¬ (0:Int) < 0)]
      simp [hsz]

/-! ## Claim theorems -/

/-- C1: for an existing regular file and a `Range` header that parses to one of
the three accepted forms and whose range, after clamping `end` to `size - 1`,
satisfies `0 ≤ start ≤ end < size`, `ResponseHelper.file` answers 206 with
`Content-Range: bytes {start}-{end}/{size}`, `Content-Length = end - start + 1`,
and a body equal to the file's bytes at offsets `start` through `end`
inclusive — identically in buffered and chunked-stream modes. -/
theorem file_valid_range (content : List Nat) (rangeHeader : Option String)
    (contentType : String) (extra : List (String × String)) (chunkSize : Nat)
    (status0 : Int) (s e : Int)
    (hp : parseRange rangeHeader (content.length : Int) = .parsed s e)
    (hs0 : 0 ≤ s) (hse : s ≤ min e ((content.length : Int) - 1))
    (hcs : 0 < chunkSize) :
    fileOp content rangeHeader contentType extra chunkSize status0 .buffer =
      .sent { status := 206,
              headers := [("Content-Type", contentType),
                          ("Content-Length",
                            toString (min e ((content.length : Int) - 1) - s + 1)),
                          ("Accept-Ranges", "bytes"),
                          ("Content-Range", "bytes " ++ toString s ++ "-" ++
                            toString (min e ((content.length : Int) - 1)) ++ "/" ++
                            toString (content.length : Int))] ++ extra,
              body := some ((content.drop s.toNat).take
                        (min e ((content.length : Int) - 1) - s + 1).toNat) } ∧
    fileOp content rangeHeader contentType extra chunkSize status0 .stream =
      fileOp content rangeHeader contentType extra chunkSize status0 .buffer := by
  set size : Int := (content.length : Int) with hsz
  set ev : Int := min e (size - 1) with hev
  have hee : ev ≤ e := min_le_left _ _
  have hes : ev ≤ size - 1 := min_le_right _ _
  have h416 : ¬(s > e ∨ s ≥ size) := by omega
  have hbuf : fileOp content rangeHeader contentType extra chunkSize status0 .buffer =
      .sent { status := 206,
              headers := [("Content-Type", contentType),
                          ("Content-Length", toString (ev - s + 1)),
                          ("Accept-Ranges", "bytes"),
                          ("Content-Range", "bytes " ++ toString s ++ "-" ++
                            toString ev ++ "/" ++ toString size)] ++ extra,
              body := some ((content.drop s.toNat).take (ev - s + 1).toNat) } := by
    simp only [fileOp, hp, ← hsz, ← hev, if_neg h416, sendFileResponse, fileHeaders,
      transferBody, if_pos rfl]
    rw [if_neg (by omega : ¬ s < 0), if_neg (by omega : ¬ ev - s + 1 < 0)]
    simp
  refine ⟨hbuf, ?_⟩
  rw [hbuf]
  simp only [fileOp, hp, ← hsz, ← hev, if_neg h416, sendFileResponse, fileHeaders,
    transferBody, if_pos rfl]
  rw [if_neg (by omega : ¬ s < 0)]
  rw [streamRead_eq_take content s.toNat (ev - s + 1).toNat chunkSize hcs]
  simp

/-- Witness for `file_valid_range`: a 5-byte file with `Range: bytes=1-3` and
chunk size 2 yields 206, `Content-Range: bytes 1-3/5`, `Content-Length: 3`,
body bytes 1..3, in both modes. -/
theorem file_valid_range_witness :
    fileOp [10, 20, 30, 40, 50] (some "bytes=1-3") "application/octet-stream" [] 2 200 .buffer =
      .sent { status := 206,
              headers := [("Content-Type", "application/octet-stream"),
                          ("Content-Length", "3"),
                          ("Accept-Ranges", "bytes"),
                          ("Content-Range", "bytes 1-3/5")],
              body := some [20, 30, 40] } ∧
    fileOp [10, 20, 30, 40, 50] (some "bytes=1-3") "application/octet-stream" [] 2 200 .stream =
      fileOp [10, 20, 30, 40, 50] (some "bytes=1-3") "application/octet-stream" [] 2 200 .buffer := by
  have h := file_valid_range [10, 20, 30, 40, 50] (some "bytes=1-3")
    "application/octet-stream" [] 2 200 1 3 (by decide) (by decide) (by decide) (by decide)
  exact ⟨h.1.trans (by decide), h.2⟩

/-- C2 is false as stated: `bytes=1-2-3` is not treated as "no range" — the
code splits on every dash, reads `start = 1`, `end = 2`, and serves a 206
partial response; `bytes=5-x` mutates `start` to 5 before the second `int()`
raises, so the `ValueError` fallback serves bytes `[5, size)` (here empty, with
`Content-Length: 0`) instead of the full file; and the dashless `bytes=5`
raises an uncaught `IndexError` (`parts[1]` on a one-element list) instead of
serving anything. -/
theorem file_malformed_range_counterexample :
    (fileOp [1, 2, 3, 4, 5] (some "bytes=1-2-3") "t" [] 8192 200 .buffer =
      .sent { status := 206,
              headers := [("Content-Type", "t"), ("Content-Length", "2"),
                          ("Accept-Ranges", "bytes"), ("Content-Range", "bytes 1-2/5")],
              body := some [2, 3] } ∧
     (fileOp [1, 2, 3, 4, 5] (some "bytes=1-2-3") "t" [] 8192 200 .buffer).statusOf ≠
       some 200) ∧
    (fileOp [1, 2, 3, 4, 5] (some "bytes=5-x") "t" [] 8192 200 .buffer).bodyOf = some [] ∧
    fileOp [1, 2, 3, 4, 5] (some "bytes=5") "t" [] 8192 200 .buffer = .indexError := by
  exact ⟨⟨by decide, by decide⟩, by decide, by decide⟩

/-- C2 (amended): a missing or empty `Range` header, one not starting with
`bytes=`, or one whose *first* `int()` call raises `ValueError` (leaving
`start`/`end` untouched) is treated as "no range": the full file is served at
the caller-supplied status with `Content-Length` equal to the file size, in
every transfer mode.  (Headers that parse differently — extra dash segments,
a parseable negative suffix, a failing *second* integer, or a dashless value —
are not in this fallback; see the counterexample.) -/
theorem file_no_range_fallback (content : List Nat) (rangeHeader : Option String)
    (contentType : String) (extra : List (String × String)) (chunkSize : Nat)
    (status0 : Int) (mode : FileMode)
    (hp : parseRange rangeHeader (content.length : Int) = .noHeader ∨
          parseRange rangeHeader (content.length : Int) =
            .valueError 0 ((content.length : Int) - 1))
    (hcs : 0 < chunkSize) :
    fileOp content rangeHeader contentType extra chunkSize status0 mode =
      .sent { status := status0,
              headers := fileHeaders contentType (content.length : Int) status0 0
                           ((content.length : Int) - 1) (content.length : Int) extra,
              body := some content } ∧
    ("Content-Length", toString (content.length : Int)) ∈
      (fileOp content rangeHeader contentType extra chunkSize status0 mode).headersOf := by
  have key : fileOp content rangeHeader contentType extra chunkSize status0 mode =
      .sent { status := status0,
              headers := fileHeaders contentType (content.length : Int) status0 0
                           ((content.length : Int) - 1) (content.length : Int) extra,
              body := some content } := by
    rcases hp with hp | hp <;>
      · simp only [fileOp, hp]
        exact sendFull content contentType extra chunkSize status0 mode hcs
  refine ⟨key, ?_⟩
  rw [key]
  simp [FileResult.headersOf, fileHeaders]

/-- Witness for `file_no_range_fallback`: `Range: bytes=x-` fails its first
integer parse, so a 3-byte file is served whole at status 200 with
`Content-Length: 3`. -/
theorem file_no_range_fallback_witness :
    fileOp [7, 8, 9] (some "bytes=x-") "text/plain" [] 8192 200 .buffer =
      .sent { status := 200,
              headers := [("Content-Type", "text/plain"), ("Content-Length", "3"),
                          ("Accept-Ranges", "bytes")],
              body := some [7, 8, 9] } ∧
    ("Content-Length", "3") ∈
      (fileOp [7, 8, 9] (some "bytes=x-") "text/plain" [] 8192 200 .buffer).headersOf := by
  have h := file_no_range_fallback [7, 8, 9] (some "bytes=x-") "text/plain" [] 8192 200
    .buffer (Or.inr (by decide)) (by decide)
  refine ⟨h.1.trans (by decide), ?_⟩
  have e1 : toString (([7, 8, 9] : List Nat).length : Int) = "3" := by decide
  exact e1 ▸ h.2

/-- C3: a parsed range with `start > end` or `start ≥ size` is answered 416
with `Content-Range: bytes */{size}` as the only header and no body bytes, and
the outcome does not depend on the file's contents (no read is performed):
any file of the same size produces the identical response. -/
theorem file_unsatisfiable_range (content : List Nat) (rangeHeader : Option String)
    (contentType : String) (extra : List (String × String)) (chunkSize : Nat)
    (status0 : Int) (mode : FileMode) (s e : Int)
    (hp : parseRange rangeHeader (content.length : Int) = .parsed s e)
    (hbad : s > e ∨ s ≥ (content.length : Int)) :
    fileOp content rangeHeader contentType extra chunkSize status0 mode =
      .sent { status := 416,
              headers := [("Content-Range", "bytes */" ++ toString (content.length : Int))],
              body := some [] } ∧
    ∀ other : List Nat, other.length = content.length →
      fileOp other rangeHeader contentType extra chunkSize status0 mode =
        fileOp content rangeHeader contentType extra chunkSize status0 mode := by
  have h1 : fileOp content rangeHeader contentType extra chunkSize status0 mode =
      .sent { status := 416,
              headers := [("Content-Range", "bytes */" ++ toString (content.length : Int))],
              body := some [] } := by
    simp only [fileOp, hp, if_pos hbad]
  refine ⟨h1, fun other hlen => ?_⟩
  have hlen' : (other.length : Int) = (content.length : Int) := by exact_mod_cast hlen
  rw [h1]
  simp only [fileOp, hlen', hp, if_pos hbad]

/-- Witness for `file_unsatisfiable_range`: `bytes=60000-70000` against a
3-byte file answers 416 with `Content-Range: bytes */3`, and a different
3-byte file gives the identical response. -/
theorem file_unsatisfiable_range_witness :
    fileOp [1, 2, 3] (some "bytes=60000-70000") "t" [] 8192 200 .buffer =
      .sent { status := 416, headers := [("Content-Range", "bytes */3")],
              body := some [] } ∧
    fileOp [9, 9, 9] (some "bytes=60000-70000") "t" [] 8192 200 .buffer =
      fileOp [1, 2, 3] (some "bytes=60000-70000") "t" [] 8192 200 .buffer := by
  have h := file_unsatisfiable_range [1, 2, 3] (some "bytes=60000-70000") "t" [] 8192 200
    .buffer 60000 70000 (by decide) (by decide)
  exact ⟨h.1.trans (by decide), h.2 [9, 9, 9] (by decide)⟩

/-- C10: the `Content-Range` header is keyed solely on the final status being
206 — with no `Range` header but a caller-passed `status = 206`, the response
still carries `Content-Range: bytes 0-{size-1}/{size}`; and every successfully
parsed, valid range forces the final status to 206 whatever status the caller
passed. -/
theorem file_content_range_tracks_206 (content : List Nat) (contentType : String)
    (extra : List (String × String)) (chunkSize : Nat) (mode : FileMode)
    (hcs : 0 < chunkSize) :
    (("Content-Range", "bytes 0-" ++ toString ((content.length : Int) - 1) ++ "/" ++
        toString (content.length : Int)) ∈
      (fileOp content none contentType extra chunkSize 206 mode).headersOf) ∧
    ∀ (rangeHeader : Option String) (s e status0 : Int),
      parseRange rangeHeader (content.length : Int) = .parsed s e →
      ¬(s > e ∨ s ≥ (content.length : Int)) →
      (fileOp content rangeHeader contentType extra chunkSize status0 mode).statusOf =
        some 206 := by
  constructor
  · have h0 : parseRange none (content.length : Int) = .noHeader := rfl
    have h := sendFull content contentType extra chunkSize 206 mode hcs
    simp only [fileOp, h0, h, FileResult.headersOf]
    simp only [fileHeaders, eq_self_iff_true, if_true, List.append_assoc, List.mem_append,
      List.mem_cons]
    exact Or.inr (Or.inl (Or.inl rfl))
  · intro rangeHeader s e status0 hp hok
    simp only [fileOp, hp, if_neg hok, sendFileResponse, FileResult.statusOf]

/-- Witness for `file_content_range_tracks_206`: a 2-byte file with no `Range`
header but caller status 206 carries `Content-Range: bytes 0-1/2`; and
`bytes=0-0` with caller status 200 still answers 206. -/
theorem file_content_range_tracks_206_witness :
    (("Content-Range", "bytes 0-1/2") ∈
      (fileOp [5, 6] none "t" [] 8192 206 .buffer).headersOf) ∧
    (fileOp [5, 6] (some "bytes=0-0") "t" [] 8192 200 .buffer).statusOf = some 206 := by
  have h := file_content_range_tracks_206 [5, 6] "t" [] 8192 .buffer (by decide)
  refine ⟨?_, h.2 (some "bytes=0-0") 0 0 200 (by decide) (by decide)⟩
  have e1 : "bytes 0-" ++ toString ((([5, 6] : List Nat).length : Int) - 1) ++ "/" ++
      toString (([5, 6] : List Nat).length : Int) = "bytes 0-1/2" := by decide
  exact e1 ▸ h.1

/-- C4: an upstream `HTTPError` does not get relayed.  The handler
`except HTTPError as upstream: pass` lets Python delete the name `upstream` at
the end of the except block, so `r.send_response(upstream.status)` raises
`UnboundLocalError` instead of relaying the 4xx/5xx response — while a
non-error upstream answer is relayed with hop-by-hop headers stripped and
`Accept-Ranges` synthesized, as the code's own comment says the error path
should also behave. -/
theorem streamProxy_http_error_crashes :
    streamProxy (.httpError 404 [("Content-Type", "text/html")] [110, 111]) =
      .unboundLocalError ∧
    streamProxy (.httpError 503 [] []) = .unboundLocalError ∧
    streamProxy (.success 200 [("Content-Type", "text/html"), ("Connection", "close")] [104]) =
      .sent 200 [("Content-Type", "text/html"), ("Accept-Ranges", "bytes")] [104] := by
  exact ⟨by decide, by decide, by decide⟩

/-- C5: `fetch` never returns the upstream status.  `Response(resp.status)`
passes the status positionally into the constructor's *body* parameter, so the
returned `Response` keeps the default status 200 on both the success arm and
the raised-`HTTPError` arm (headers and body are still relayed). -/
theorem fetch_returns_default_status :
    fetch (.success 404 [("X-Custom", "1")] [104, 105]) =
      .ok { status := 200, headers := [("X-Custom", "1")], body := .bytes [104, 105] } ∧
    fetch (.httpError 502 [("Content-Type", "text/plain")] [101]) =
      .ok { status := 200, headers := [("Content-Type", "text/plain")], body := .bytes [101] } := by
  exact ⟨by decide, by decide⟩

/-- C6: on a `URLError` (name-resolution/connection failure) or a timeout,
`fetch` does not return a 502/504 `Response` — `Response(502).set_body(...)`
calls a method the `Response` class does not define, so both arms raise
`AttributeError` to the caller. -/
theorem fetch_raises_attribute_error :
    fetch (.urlError "Name or service not known") =
      .raised (.attributeError "Response object has no attribute set_body") ∧
    fetch .timeoutError =
      .raised (.attributeError "Response object has no attribute set_body") := by
  exact ⟨by decide, by decide⟩

/-- C7 is false as stated for `fetch`: `_HOP_BY_HOP` in `fetch.py` omits
`accept-encoding`, so an upstream `Accept-Encoding` header — which the claim's
hop-by-hop list (the `HOP_BY_HOP` of `headers.py`) includes for proxying —
survives into the headers `fetch` relays. -/
theorem fetch_relays_accept_encoding :
    fetch (.success 200 [("Accept-Encoding", "gzip")] []) =
      .ok { status := 200, headers := [("Accept-Encoding", "gzip")], body := .bytes [] } ∧
    ("Accept-Encoding", "gzip") ∈
      (fetch (.success 200 [("Accept-Encoding", "gzip")] [])).headersOf ∧
    lowerStr "Accept-Encoding" ∈ HOP_BY_HOP := by
  exact ⟨by decide, by decide, by decide⟩

theorem mem_dictSet_key {d : List (String × String)} {k0 v0 k v : String}
    (h : (k, v) ∈ dictSet d k0 v0) : k = k0 ∨ ∃ w, (k, w) ∈ d := by
  unfold dictSet at h
  by_cases hc : d.any (fun kv => kv.1 = k0)
  · rw [if_pos hc] at h
    obtain ⟨kv, hkv, heq⟩ := List.mem_map.mp h
    by_cases h2 : kv.1 = k0
    · rw [if_pos h2] at heq
      injection heq with h3 h4
      exact Or.inl h3.symm
    · rw [if_neg h2] at heq
      exact Or.inr ⟨v, heq ▸ hkv⟩
  · rw [if_neg hc] at h
    rcases List.mem_append.mp h with h | h
    · exact Or.inr ⟨v, h⟩
    · have h5 := List.mem_singleton.mp h
      injection h5 with h3 h4
      exact Or.inl h3

theorem fetchCopyHeaders_keys (up : List (String × String)) :
    ∀ (d : List (String × String)),
      (∀ k w, (k, w) ∈ d → lowerStr k ∉ FETCH_HOP_BY_HOP) →
      ∀ k w, (k, w) ∈ fetchCopyHeaders d up → lowerStr k ∉ FETCH_HOP_BY_HOP := by
  induction up with
  | nil => intro d hd k w h; exact hd k w h
  | cons kv rest ih =>
    intro d hd k w h
    simp only [fetchCopyHeaders, List.foldl_cons] at h
    refine ih _ ?_ k w h
    intro k2 w2 h2
    by_cases hg : lowerStr kv.1 ∈ FETCH_HOP_BY_HOP
    · rw [if_pos hg] at h2
      exact hd k2 w2 h2
    · rw [if_neg hg] at h2
      rcases mem_dictSet_key h2 with rfl | ⟨w3, h3⟩
      · exact hg
      · exact hd k2 w3 h3

theorem proxyFold_keys (src : List (String × String)) :
    ∀ (acc : List (String × String)),
      (∀ k w, (k, w) ∈ acc → k ∉ HOP_BY_HOP) →
      ∀ k w,
        (k, w) ∈ src.foldl
          (fun acc kv => if kv.1 ∈ HOP_BY_HOP then acc else dictSet acc kv.1 kv.2) acc →
        k ∉ HOP_BY_HOP := by
  induction src with
  | nil => intro acc hacc k w h; exact hacc k w h
  | cons kv rest ih =>
    intro acc hacc k w h
    simp only [List.foldl_cons] at h
    refine ih _ ?_ k w h
    intro k2 w2 h2
    by_cases hg : kv.1 ∈ HOP_BY_HOP
    · rw [if_pos hg] at h2
      exact hacc k2 w2 h2
    · rw [if_neg hg] at h2
      rcases mem_dictSet_key h2 with rfl | ⟨w3, h3⟩
      · exact hg
      · exact hacc k2 w3 h3

/-- C7 (amended): `to_proxy_dict` and `proxy_headers` never emit a key of
`headers.py`'s `HOP_BY_HOP` (the claim's eleven names); the headers
`streamProxy` relays to the client never contain one of those names in any
casing; and the headers `fetch` relays never contain a name of `fetch.py`'s
`_HOP_BY_HOP` — that set omits `accept-encoding`, which `fetch` alone may
relay (see the counterexample). -/
theorem hop_by_hop_always_stripped :
    (∀ hs k v, (k, v) ∈ to_proxy_dict hs → k ∉ HOP_BY_HOP) ∧
    (∀ raw k v, (k, v) ∈ proxy_headers raw → k ∉ HOP_BY_HOP) ∧
    (∀ st hs body k v, (k, v) ∈ (streamProxy (.success st hs body)).headersOf →
      lowerStr k ∉ HOP_BY_HOP) ∧
    (∀ upstream k v, (k, v) ∈ (fetch upstream).headersOf →
      lowerStr k ∉ FETCH_HOP_BY_HOP) := by
  refine ⟨?_, ?_, ?_, ?_⟩
  · intro hs k v h
    simp only [to_proxy_dict, List.mem_filter, decide_eq_true_eq] at h
    exact h.2
  · intro raw k v h
    exact proxyFold_keys (headersInit raw) [] (by intro k w h; cases h) k v h
  · intro st hs body k v h
    simp only [streamProxy, ProxyResult.headersOf] at h
    rcases List.mem_append.mp h with h | h
    · simp only [List.mem_filter, decide_eq_true_eq] at h
      exact h.2
    · by_cases hg : hs.any (fun kv => lowerStr kv.1 = "accept-ranges")
      · rw [if_pos hg] at h
        cases h
      · rw [if_neg hg] at h
        have h5 := List.mem_singleton.mp h
        injection h5 with h3 h4
        subst h3
        decide
  · intro upstream k v h
    cases upstream with
    | success st hs body =>
      simp only [fetch, FetchResult.headersOf, responseInit] at h
      exact fetchCopyHeaders_keys hs [] (by intro k w h; cases h) k v h
    | httpError st hs body =>
      simp only [fetch, FetchResult.headersOf, responseInit] at h
      exact fetchCopyHeaders_keys hs [] (by intro k w h; cases h) k v h
    | urlError r => cases h
    | timeoutError => cases h

/-- Witness for `hop_by_hop_always_stripped` on concrete header sets: a
surviving `to_proxy_dict` key and a surviving `fetch` key are outside the
respective hop-by-hop sets. -/
theorem hop_by_hop_always_stripped_witness :
    "x-served-by" ∉ HOP_BY_HOP ∧ lowerStr "X-Total-Count" ∉ FETCH_HOP_BY_HOP := by
  have h := hop_by_hop_always_stripped
  exact ⟨h.1 [("x-served-by", "a")] "x-served-by" "a" (by decide),
         h.2.2.2 (.success 200 [("X-Total-Count", "5")] []) "X-Total-Count" "5" (by decide)⟩

/-- C8 is false as stated: a failure that itself carries a defined HTTP status
(a raised `HttpServerError(404, ...)`) is still wrapped by
`from_exception(exc, debug=False)` with every other argument left at its
default, so the produced record's status is 500, not the carried 404. -/
theorem handle_error_ignores_carried_status :
    (handle_error (.httpServerError 404 "not found") (some .succeeds)).callbackCalls =
      [{ status_code := 500, message := "Internal Server Error", debug := false }] ∧
    ¬ (500 : Int) = 404 := by
  exact ⟨by decide, by decide⟩

/-- C8 (amended): every uncaught failure escaping the user handler that is not
a client disconnect is routed through `_handle_error` once, producing an
ErrorRecord whose status is always 500 (`from_exception` is called with its
default `status_code`; a status carried by the failure is not consulted), and
the configured error callback is invoked exactly once with that record — also
when the callback itself fails. -/
theorem handler_failure_500_once (exc : PyExc) (cb : CallbackBehavior)
    (h1 : exc ≠ .brokenPipe) (h2 : exc ≠ .connectionReset) :
    handle_request (.raises exc) (some cb) = some (handle_error exc (some cb)) ∧
    (handle_error exc (some cb)).callbackCalls = [from_exception exc 500 none false] ∧
    (from_exception exc 500 none false).status_code = 500 ∧
    (handle_error exc (some cb)).defaultCalls = [] ∧
    (handle_error exc (some cb)).suppressed = false := by
  cases exc with
  | brokenPipe => exact absurd rfl h1
  | connectionReset => exact absurd rfl h2
  | httpServerError st m => exact ⟨rfl, rfl, rfl, rfl, rfl⟩
  | otherExc m => exact ⟨rfl, rfl, rfl, rfl, rfl⟩

/-- Witness for `handler_failure_500_once`: a plain runtime failure with a
configured callback produces exactly one callback invocation carrying status
500. -/
theorem handler_failure_500_once_witness :
    handle_request (.raises (.otherExc "boom")) (some .succeeds) =
      some { callbackCalls := [{ status_code := 500, message := "Internal Server Error",
                                 debug := false }],
             defaultCalls := [], suppressed := false, closeConnection := false } := by
  have h := handler_failure_500_once (.otherExc "boom") .succeeds (by decide) (by decide)
  exact h.1.trans (by decide)

end PyHttp
